import Mathlib

/-!
Verification of the pagination logic of `ecommerce` (the `OfferCollection`
Backbone collection in `src/ecommerce/static/js/collections/offer_collection.js`,
instantiated by the redeem page in `src/unnamed/part_000`).

The collection is embedded as a record `OfferStore` holding the fetched offer
records (an opaque list over a type parameter `α`), the 1-based page cursor,
the fixed page size, the derived slice limits, the derived page count and the
`empty` flag.  Each method of the collection becomes a pure function from
store states to store states (paired with the method's return value where it
has one).  JavaScript numbers that hold array lengths and page indices are
modelled as `ℤ` (page, limits, page count) and `ℕ` (page size, lengths);
no arithmetic here comes near 2^53, so no overflow modelling is needed.
`Array.prototype.slice` is embedded with full ECMAScript semantics,
including the treatment of negative indices as offsets from the end.
-/

namespace Ecommerce

/-- State of the `OfferCollection` (offer_collection.js).  `records` is the
ordered sequence of fetched offer models (`this.models`); the remaining
fields are the instance attributes set by `initialize`, `parse`,
`updateNumberOfPages` and `updateLimits`.  In JavaScript `numberOfPages` is
`undefined` between construction and the first load; every claim below is
about stores that have completed at least one load, where it is always a
number, so it is modelled as `ℤ` throughout. -/
structure OfferStore (α : Type) where
  records : List α
  page : ℤ
  perPage : ℕ
  lowerLimit : ℤ
  upperLimit : ℤ
  numberOfPages : ℤ
  empty : Bool
deriving DecidableEq

variable {α : Type}

/-- `updateLimits` (offer_collection.js lines 36-39):
`lowerLimit = (page - 1) * perPage`, `upperLimit = page * perPage`. -/
def updateLimits (s : OfferStore α) : OfferStore α :=
  { s with
    lowerLimit := (s.page - 1) * (s.perPage : ℤ)
    upperLimit := s.page * (s.perPage : ℤ) }

/-- `Math.ceil (a / b)` for a natural numerator and positive natural
denominator (the only case the code exercises: `b` is always `perPage = 6`). -/
def ceilDivNat (a b : ℕ) : ℕ := (a + b - 1) / b

/-- `updateNumberOfPages` (offer_collection.js lines 32-34):
`numberOfPages = Math.ceil(this.length / this.perPage)`, where `this.length`
is the number of stored records. -/
def updateNumberOfPages (s : OfferStore α) : OfferStore α :=
  { s with numberOfPages := (ceilDivNat s.records.length s.perPage : ℤ) }

/-- The index clamping of ECMAScript `Array.prototype.slice`: a negative
index counts from the end (`max (len + i) 0`), a non-negative one is clipped
to the length (`min i len`). -/
def jsSliceBound (len : ℕ) (i : ℤ) : ℕ :=
  if i < 0 then ((len : ℤ) + i).toNat else min i.toNat len

/-- ECMAScript `Array.prototype.slice(start, end)` on a list: elements from
index `jsSliceBound len start` (inclusive) to `jsSliceBound len end`
(exclusive).  Backbone's `Collection.slice` applies exactly this to
`this.models`. -/
def jsSlice (l : List α) (s e : ℤ) : List α :=
  (l.drop (jsSliceBound l.length s)).take
    (jsSliceBound l.length e - jsSliceBound l.length s)

/-- `onFirstPage` (offer_collection.js lines 63-65): `this.page === 1`. -/
def onFirstPage (s : OfferStore α) : Bool := s.page == 1

/-- `onLastPage` (offer_collection.js lines 67-69):
`this.page === this.numberOfPages`. -/
def onLastPage (s : OfferStore α) : Bool := s.page == s.numberOfPages

/-- `goToPage` (offer_collection.js lines 41-45): set `page`, recompute the
limits, return `this.slice(lowerLimit, upperLimit)` together with the
updated state. -/
def goToPage (s : OfferStore α) (pageNumber : ℤ) : List α × OfferStore α :=
  let t := updateLimits { s with page := pageNumber }
  (jsSlice t.records t.lowerLimit t.upperLimit, t)

/-- `nextPage` (offer_collection.js lines 47-53): on the last page return
`false` (modelled `none`) without touching the state, otherwise delegate to
`goToPage (page + 1)` (returned slice wrapped in `some`). -/
def nextPage (s : OfferStore α) : Option (List α) × OfferStore α :=
  if onLastPage s then (none, s)
  else
    let r := goToPage s (s.page + 1)
    (some r.1, r.2)

/-- `previousPage` (offer_collection.js lines 55-61): on the first page
return `false` (modelled `none`) without touching the state, otherwise
delegate to `goToPage (page - 1)`. -/
def previousPage (s : OfferStore α) : Option (List α) × OfferStore α :=
  if onFirstPage s then (none, s)
  else
    let r := goToPage s (s.page - 1)
    (some r.1, r.2)

/-- `initialize` (offer_collection.js lines 15-22): a fresh store has no
records, `empty = false`, `page = 1`, `perPage = 6`, and limits computed by
`updateLimits`; it also registers `updateNumberOfPages` on the `update`
event (reflected in `load` below).  In JavaScript `numberOfPages` is left
`undefined` here; it is modelled as `0`, the value the first load of an
empty response produces, and no claim reads it before a load. -/
def initStore (α : Type) : OfferStore α :=
  updateLimits
    { records := [], page := 1, perPage := 6, lowerLimit := 0,
      upperLimit := 0, numberOfPages := 0, empty := false }

/-- One full load of a response whose `results` array is `results`: the
`parse` body (offer_collection.js lines 24-30) sets `empty` to `true` when
`results.length === 0` (and never back to `false`), then the framework
stores the parsed records and fires the `update` event, which runs
`updateNumberOfPages` (registered in `initialize`).
Modelled from the spec: the surrounding `PaginatedCollection` base class
(`collections/paginated_collection`, whose `parse` is invoked via
`this._super(response)`) and Backbone's `fetch`/`set`/event dispatch are not
in the sources; per the spec, `load(records)` "replaces the stored sequence
with `records`; sets `empty = (records.length == 0)`; recomputes
`numberOfPages`", so the missing parts are modelled as replacing `records`
and firing the update handler, with no further effect on this state. -/
def load (s : OfferStore α) (results : List α) : OfferStore α :=
  updateNumberOfPages
    { (if results.length = 0 then { s with empty := true } else s) with
      records := results }

/-- The store the redeem page (src/unnamed/part_000) works with: a freshly
constructed collection after its one blocking fetch. -/
def freshLoad (records : List α) : OfferStore α :=
  load (initStore α) records

/-- The slice `records[a:b]` with both indices clipped to the array bounds
`[0, records.length]`, as the spec describes the return value of
`goToPage` (spec §8).  This is the spec-side definition to compare with the
code's `jsSlice`. -/
def specSlice (l : List α) (a b : ℤ) : List α :=
  (l.take b.toNat).drop a.toNat

/-- One user navigation step: a `nextPage` or `previousPage` call (return
value discarded, state kept). -/
inductive NavStep : OfferStore α → OfferStore α → Prop
  | next (s : OfferStore α) : NavStep s (nextPage s).2
  | prev (s : OfferStore α) : NavStep s (previousPage s).2

/-- One post-initialization operation on a live store: a load (parse of a
fetch response) or any navigation call. -/
inductive OpStep : OfferStore α → OfferStore α → Prop
  | doLoad (s : OfferStore α) (results : List α) : OpStep s (load s results)
  | doGoTo (s : OfferStore α) (p : ℤ) : OpStep s (goToPage s p).2
  | doNext (s : OfferStore α) : OpStep s (nextPage s).2
  | doPrev (s : OfferStore α) : OpStep s (previousPage s).2


/-! ## Helper lemmas -/

/-- The state produced by `goToPage`: only `page` and the two limits change. -/
theorem goToPage_snd (s : OfferStore α) (p : ℤ) :
    (goToPage s p).2 =
      { s with page := p, lowerLimit := (p - 1) * (s.perPage : ℤ),
               upperLimit := p * (s.perPage : ℤ) } := rfl

/-- The slice returned by `goToPage`. -/
theorem goToPage_fst (s : OfferStore α) (p : ℤ) :
    (goToPage s p).1 =
      jsSlice s.records ((p - 1) * (s.perPage : ℤ)) (p * (s.perPage : ℤ)) := rfl

/-- On the last page (`page = numberOfPages`) `nextPage` returns `false` and
keeps the state. -/
theorem nextPage_of_last (s : OfferStore α) (h : s.page = s.numberOfPages) :
    nextPage s = (none, s) := by
  simp [nextPage, onLastPage, h]

/-- Off the last page, `nextPage` is `goToPage (page + 1)` with the slice
wrapped in `some`. -/
theorem nextPage_of_not_last (s : OfferStore α) (h : s.page ≠ s.numberOfPages) :
    nextPage s =
      (some (goToPage s (s.page + 1)).1, (goToPage s (s.page + 1)).2) := by
  simp [nextPage, onLastPage, h]

/-- On the first page (`page = 1`) `previousPage` returns `false` and keeps
the state. -/
theorem previousPage_of_first (s : OfferStore α) (h : s.page = 1) :
    previousPage s = (none, s) := by
  simp [previousPage, onFirstPage, h]

/-- Off the first page, `previousPage` is `goToPage (page - 1)` with the
slice wrapped in `some`. -/
theorem previousPage_of_not_first (s : OfferStore α) (h : s.page ≠ 1) :
    previousPage s =
      (some (goToPage s (s.page - 1)).1, (goToPage s (s.page - 1)).2) := by
  simp [previousPage, onFirstPage, h]

/-- Fields of the state after a `load`. -/
theorem load_records (s : OfferStore α) (results : List α) :
    (load s results).records = results := by
  unfold load updateNumberOfPages
  split <;> rfl

theorem load_perPage (s : OfferStore α) (results : List α) :
    (load s results).perPage = s.perPage := by
  unfold load updateNumberOfPages
  split <;> rfl

theorem load_page (s : OfferStore α) (results : List α) :
    (load s results).page = s.page := by
  unfold load updateNumberOfPages
  split <;> rfl

theorem load_numberOfPages (s : OfferStore α) (results : List α) :
    (load s results).numberOfPages =
      (ceilDivNat results.length s.perPage : ℤ) := by
  unfold load updateNumberOfPages
  split <;> rfl

theorem load_empty (s : OfferStore α) (results : List α) :
    (load s results).empty = (s.empty || decide (results.length = 0)) := by
  unfold load updateNumberOfPages
  by_cases h : results.length = 0 <;> simp [h]

/-- `nextPage` never changes `records`, `perPage`, `empty`, `numberOfPages`. -/
theorem nextPage_frame (s : OfferStore α) :
    (nextPage s).2.records = s.records ∧ (nextPage s).2.perPage = s.perPage ∧
    (nextPage s).2.empty = s.empty ∧
    (nextPage s).2.numberOfPages = s.numberOfPages := by
  by_cases h : s.page = s.numberOfPages
  · rw [nextPage_of_last s h]
    exact ⟨rfl, rfl, rfl, rfl⟩
  · rw [nextPage_of_not_last s h]
    exact ⟨rfl, rfl, rfl, rfl⟩

/-- `previousPage` never changes `records`, `perPage`, `empty`,
`numberOfPages`. -/
theorem previousPage_frame (s : OfferStore α) :
    (previousPage s).2.records = s.records ∧
    (previousPage s).2.perPage = s.perPage ∧
    (previousPage s).2.empty = s.empty ∧
    (previousPage s).2.numberOfPages = s.numberOfPages := by
  by_cases h : s.page = 1
  · rw [previousPage_of_first s h]
    exact ⟨rfl, rfl, rfl, rfl⟩
  · rw [previousPage_of_not_first s h]
    exact ⟨rfl, rfl, rfl, rfl⟩

/-- The page of the state after `nextPage`: unchanged on the last page,
incremented otherwise. -/
theorem nextPage_page (s : OfferStore α) :
    (nextPage s).2.page =
      if s.page = s.numberOfPages then s.page else s.page + 1 := by
  by_cases h : s.page = s.numberOfPages
  · rw [nextPage_of_last s h, if_pos h]
  · rw [nextPage_of_not_last s h, if_neg h]
    rfl

/-- The page of the state after `previousPage`: unchanged on the first page,
decremented otherwise. -/
theorem previousPage_page (s : OfferStore α) :
    (previousPage s).2.page = if s.page = 1 then s.page else s.page - 1 := by
  by_cases h : s.page = 1
  · rw [previousPage_of_first s h, if_pos h]
  · rw [previousPage_of_not_first s h, if_neg h]
    rfl

/-- The freshly loaded store is on page 1. -/
theorem freshLoad_page (records : List α) : (freshLoad records).page = 1 := by
  rw [freshLoad, load_page]
  rfl

theorem freshLoad_perPage (records : List α) :
    (freshLoad records).perPage = 6 := by
  rw [freshLoad, load_perPage]
  rfl

theorem freshLoad_records (records : List α) :
    (freshLoad records).records = records := load_records _ _

theorem freshLoad_numberOfPages (records : List α) :
    (freshLoad records).numberOfPages =
      (ceilDivNat records.length 6 : ℤ) := by
  rw [freshLoad, load_numberOfPages]
  rfl

/-- Clipped take-after-drop, the ℕ core of the slice comparison. -/
theorem drop_take_clip (l : List α) (m n : ℕ) :
    (l.drop (min m l.length)).take (min n l.length - min m l.length) =
      (l.take n).drop m := by
  have hdrop : l.drop (min m l.length) = l.drop m := by
    rcases le_total m l.length with h | h
    · rw [min_eq_left h]
    · rw [min_eq_right h, List.drop_eq_nil_of_le le_rfl,
        List.drop_eq_nil_of_le h]
  rw [hdrop, List.drop_take n m l, List.take_eq_take]
  simp only [List.length_drop]
  omega

/-- For non-negative indices, ECMAScript slice agrees with the clipped
mathematical slice of the spec. -/
theorem jsSlice_of_nonneg (l : List α) (a b : ℤ) (ha : 0 ≤ a) (hb : 0 ≤ b) :
    jsSlice l a b = specSlice l a b := by
  unfold jsSlice specSlice jsSliceBound
  rw [if_neg (by omega), if_neg (by omega)]
  exact drop_take_clip l a.toNat b.toNat


/-- A single navigation step preserves `1 ≤ page ≤ numberOfPages`. -/
theorem navStep_range {b c : OfferStore α} (hstep : NavStep b c)
    (hb : 1 ≤ b.page ∧ b.page ≤ b.numberOfPages) :
    1 ≤ c.page ∧ c.page ≤ c.numberOfPages := by
  obtain ⟨hb1, hb2⟩ := hb
  cases hstep with
  | next =>
    obtain ⟨-, -, -, hnum⟩ := nextPage_frame b
    rw [hnum, nextPage_page b]
    by_cases hlast : b.page = b.numberOfPages
    · rw [if_pos hlast]
      omega
    · rw [if_neg hlast]
      omega
  | prev =>
    obtain ⟨-, -, -, hnum⟩ := previousPage_frame b
    rw [hnum, previousPage_page b]
    by_cases hfirst : b.page = 1
    · rw [if_pos hfirst]
      omega
    · rw [if_neg hfirst]
      omega

/-- A single operation preserves `empty = true`. -/
theorem opStep_empty {b c : OfferStore α} (hstep : OpStep b c)
    (hb : b.empty = true) : c.empty = true := by
  cases hstep with
  | doLoad => rw [load_empty, hb, Bool.true_or]
  | doGoTo => rw [goToPage_snd]; exact hb
  | doNext => rw [(nextPage_frame b).2.2.1]; exact hb
  | doPrev => rw [(previousPage_frame b).2.2.1]; exact hb


/-! ## Claim theorems -/

/-- C1 (counterexample): the claim that `goToPage p` returns
`records[(p-1)*6 : p*6]` clipped to the array bounds for EVERY integer `p`
is false: at `p = -1` on 13 loaded records the code's JavaScript slice
interprets the negative limits from the end of the array and returns six
records, while the clipped slice is empty. -/
theorem goToPage_clip_counterexample :
    (goToPage (freshLoad (List.range 13)) (-1)).1 ≠
      specSlice (freshLoad (List.range 13)).records ((-1 - 1) * 6)
        ((-1) * 6) := by
  decide

/-- C1 (amended): for every store with page size 6 and every integer `p`,
`goToPage p` sets `page = p` and recomputes `lowerLimit = (p-1)*6`,
`upperLimit = p*6`; whenever `1 ≤ p` the returned slice is exactly
`records[(p-1)*6 : p*6]` clipped to the array bounds (shorter than 6 on the
last page, empty past the end).  For `p ≤ -1` the returned slice instead
follows JavaScript negative-index semantics (see the counterexample). -/
theorem goToPage_spec (s : OfferStore α) (p : ℤ) (hpp : s.perPage = 6) :
    (goToPage s p).2.page = p ∧
    (goToPage s p).2.lowerLimit = (p - 1) * 6 ∧
    (goToPage s p).2.upperLimit = p * 6 ∧
    (1 ≤ p →
      (goToPage s p).1 = specSlice s.records ((p - 1) * 6) (p * 6)) := by
  refine ⟨rfl, ?_, ?_, ?_⟩
  · rw [goToPage_snd]
    simp [hpp]
  · rw [goToPage_snd]
    simp [hpp]
  · intro hp
    rw [goToPage_fst, hpp]
    exact jsSlice_of_nonneg _ _ _
      (mul_nonneg (by omega) (by norm_num)) (by positivity)

/-- C1 witness: on 13 loaded records, page 3 (the last page) yields exactly
the clipped slice `records[12:18] = records[12:13]`. -/
theorem goToPage_spec_witness :
    (freshLoad (List.range 13)).perPage = 6 ∧ (1 : ℤ) ≤ 3 ∧
      (goToPage (freshLoad (List.range 13)) 3).1 =
        specSlice (freshLoad (List.range 13)).records ((3 - 1) * 6)
          (3 * 6) :=
  ⟨by decide, by decide,
    (goToPage_spec (freshLoad (List.range 13)) 3 (by decide)).2.2.2
      (by decide)⟩

/-- C2 (counterexample): after a load of zero records followed by a load of
one record, `empty` is still `true` although the loaded sequence is
non-empty, so `empty = (records.length == 0)` does not hold after every
load. -/
theorem load_empty_counterexample :
    (load (load (initStore ℕ) []) [0]).empty = true ∧
      (load (load (initStore ℕ) []) [0]).records.length ≠ 0 := by
  decide

/-- C2 (amended): `load` sets `empty` to `true` when the loaded sequence has
zero records and leaves it unchanged otherwise; it never resets it to
`false`.  Hence after a load, `empty = (records.length == 0)` holds exactly
when `empty` was `false` beforehand (in particular after the first load of a
fresh store). -/
theorem load_empty_flag (s : OfferStore α) (results : List α) :
    (load s results).empty = (s.empty || decide (results.length = 0)) :=
  load_empty s results

/-- C3 (counterexample): on the freshly loaded empty store
(`numberOfPages = 0`, `page = 1`), `nextPage` is not a no-op: it moves
`page` to 2, outside `[1, numberOfPages]`. -/
theorem nav_range_counterexample :
    (freshLoad ([] : List ℕ)).numberOfPages = 0 ∧
      (freshLoad ([] : List ℕ)).page = 1 ∧
      (nextPage (freshLoad ([] : List ℕ))).2.page = 2 := by
  decide

/-- C3 (amended): provided at least one record is loaded, every state
reachable from the freshly loaded store using only `nextPage` and
`previousPage` has `page` in `[1, numberOfPages]`; a call that would move
past either bound leaves the state unchanged.  On the empty store
(`numberOfPages = 0`) the property fails: `nextPage` moves past the bound
(see the counterexample). -/
theorem nav_stays_in_range (records : List α) (hne : records ≠ []) :
    ∀ s : OfferStore α,
      Relation.ReflTransGen NavStep (freshLoad records) s →
        1 ≤ s.page ∧ s.page ≤ s.numberOfPages := by
  have hN : (1 : ℤ) ≤ (freshLoad records).numberOfPages := by
    have hlen : 0 < records.length := List.length_pos.mpr hne
    rw [freshLoad_numberOfPages]
    unfold ceilDivNat
    omega
  intro s h
  induction h with
  | refl => exact ⟨by rw [freshLoad_page], by rw [freshLoad_page]; exact hN⟩
  | tail _ hstep ih => exact navStep_range hstep ih

/-- C3 witness: from a one-record store, the state after one `nextPage`
still has `page` in `[1, numberOfPages]`. -/
theorem nav_stays_in_range_witness :
    ([0] : List ℕ) ≠ [] ∧
      (1 ≤ (nextPage (freshLoad ([0] : List ℕ))).2.page ∧
        (nextPage (freshLoad ([0] : List ℕ))).2.page ≤
          (nextPage (freshLoad ([0] : List ℕ))).2.numberOfPages) :=
  ⟨by decide,
    nav_stays_in_range [0] (by decide) _
      (Relation.ReflTransGen.single (NavStep.next _))⟩

/-- C4: after any load into a store with page size 6, `numberOfPages` is the
ceiling of `records.length / 6`; in particular 13 records give 3 pages and 0
records give 0 pages (see the witness). -/
theorem load_numberOfPages_ceil (s : OfferStore α) (results : List α)
    (hpp : s.perPage = 6) :
    (load s results).numberOfPages = ⌈(results.length : ℚ) / 6⌉ := by
  rw [load_numberOfPages, hpp]
  symm
  rw [Int.ceil_eq_iff]
  unfold ceilDivNat
  have hE : results.length + 6 - 1 = results.length + 5 := by omega
  rw [hE]
  have hn1 : ((results.length + 5) / 6) * 6 ≤ results.length + 5 := by omega
  have hn2 : results.length ≤ ((results.length + 5) / 6) * 6 := by omega
  have hq1 : ((((results.length + 5) / 6 : ℕ) : ℤ) : ℚ) * 6 ≤
      (results.length : ℚ) + 5 := by exact_mod_cast hn1
  have hq2 : (results.length : ℚ) ≤
      ((((results.length + 5) / 6 : ℕ) : ℤ) : ℚ) * 6 := by exact_mod_cast hn2
  constructor
  · rw [lt_div_iff₀ (by norm_num : (0 : ℚ) < 6)]
    linarith
  · rw [div_le_iff₀ (by norm_num : (0 : ℚ) < 6)]
    linarith

/-- C4 witness: loading 13 records into the fresh store (page size 6) gives
`numberOfPages = ⌈13/6⌉`, which evaluates to 3; loading 0 records gives 0. -/
theorem load_numberOfPages_ceil_witness :
    (initStore ℕ).perPage = 6 ∧
      (load (initStore ℕ) (List.range 13)).numberOfPages =
        ⌈((List.range 13).length : ℚ) / 6⌉ ∧
      (load (initStore ℕ) (List.range 13)).numberOfPages = 3 ∧
      (load (initStore ℕ) []).numberOfPages = 0 :=
  ⟨rfl, load_numberOfPages_ceil (initStore ℕ) (List.range 13) rfl,
    by decide, by decide⟩

/-- C5: on the last page (`page = numberOfPages`), `nextPage` returns
`false` (modelled `none`) and the entire store state — in particular `page`,
`lowerLimit` and `upperLimit` — is unchanged. -/
theorem nextPage_last_noop (s : OfferStore α)
    (h : s.page = s.numberOfPages) : nextPage s = (none, s) :=
  nextPage_of_last s h

/-- C5 witness: two records give one page; `nextPage` from page 1 returns
`false` and keeps the state. -/
theorem nextPage_last_noop_witness :
    (freshLoad ([0, 1] : List ℕ)).page =
        (freshLoad ([0, 1] : List ℕ)).numberOfPages ∧
      nextPage (freshLoad ([0, 1] : List ℕ)) =
        (none, freshLoad ([0, 1] : List ℕ)) :=
  ⟨by decide, nextPage_last_noop _ (by decide)⟩

/-- C6: on the first page (`page = 1`), `previousPage` returns `false`
(modelled `none`) and the entire store state — in particular `page`,
`lowerLimit` and `upperLimit` — is unchanged. -/
theorem previousPage_first_noop (s : OfferStore α) (h : s.page = 1) :
    previousPage s = (none, s) :=
  previousPage_of_first s h

/-- C6 witness: the freshly loaded one-record store is on page 1;
`previousPage` returns `false` and keeps the state. -/
theorem previousPage_first_noop_witness :
    (freshLoad ([0] : List ℕ)).page = 1 ∧
      previousPage (freshLoad ([0] : List ℕ)) =
        (none, freshLoad ([0] : List ℕ)) :=
  ⟨by decide, previousPage_first_noop _ (by decide)⟩

/-- C7: `onFirstPage` is `true` iff `page = 1` and `onLastPage` is `true`
iff `page = numberOfPages`.  Both are embedded as pure functions of the
state, mirroring the source methods, which read `this.page` and
`this.numberOfPages` and assign nothing. -/
theorem onFirstPage_onLastPage_iff (s : OfferStore α) :
    (onFirstPage s = true ↔ s.page = 1) ∧
      (onLastPage s = true ↔ s.page = s.numberOfPages) := by
  constructor <;> simp [onFirstPage, onLastPage]

/-- C8: off the last page, `nextPage` returns and produces exactly what
`goToPage (page + 1)` does (slice wrapped in `some`); off the first page,
`previousPage` likewise equals `goToPage (page - 1)`. -/
theorem nav_delegates_goToPage (s : OfferStore α) :
    (s.page ≠ s.numberOfPages →
        nextPage s =
          (some (goToPage s (s.page + 1)).1, (goToPage s (s.page + 1)).2)) ∧
      (s.page ≠ 1 →
        previousPage s =
          (some (goToPage s (s.page - 1)).1,
            (goToPage s (s.page - 1)).2)) :=
  ⟨nextPage_of_not_last s, previousPage_of_not_first s⟩

/-- C8 witness: on the 13-record store moved to page 2 (of 3), both guards
are off and both navigation calls delegate to `goToPage`. -/
theorem nav_delegates_goToPage_witness :
    ((goToPage (freshLoad (List.range 13)) 2).2.page ≠
        (goToPage (freshLoad (List.range 13)) 2).2.numberOfPages ∧
      nextPage (goToPage (freshLoad (List.range 13)) 2).2 =
        (some
            (goToPage (goToPage (freshLoad (List.range 13)) 2).2
              ((goToPage (freshLoad (List.range 13)) 2).2.page + 1)).1,
          (goToPage (goToPage (freshLoad (List.range 13)) 2).2
            ((goToPage (freshLoad (List.range 13)) 2).2.page + 1)).2)) ∧
      ((goToPage (freshLoad (List.range 13)) 2).2.page ≠ 1 ∧
        previousPage (goToPage (freshLoad (List.range 13)) 2).2 =
          (some
              (goToPage (goToPage (freshLoad (List.range 13)) 2).2
                ((goToPage (freshLoad (List.range 13)) 2).2.page - 1)).1,
            (goToPage (goToPage (freshLoad (List.range 13)) 2).2
              ((goToPage (freshLoad (List.range 13)) 2).2.page - 1)).2)) :=
  ⟨⟨by decide, (nav_delegates_goToPage _).1 (by decide)⟩,
    ⟨by decide, (nav_delegates_goToPage _).2 (by decide)⟩⟩

/-- C9: the `empty` flag is sticky — once `true`, it stays `true` through
any sequence of loads (of any, possibly non-empty, response) and navigation
calls: `parse` only ever assigns `true` to it and no other operation touches
it. -/
theorem empty_flag_sticky (s t : OfferStore α) (h : s.empty = true)
    (hR : Relation.ReflTransGen OpStep s t) : t.empty = true := by
  induction hR with
  | refl => exact h
  | tail _ hstep ih => exact opStep_empty hstep ih

/-- C9 witness: after an empty load, a later load of one record leaves
`empty` at `true`. -/
theorem empty_flag_sticky_witness :
    (load (initStore ℕ) []).empty = true ∧
      (load (load (initStore ℕ) []) [0]).empty = true :=
  ⟨by decide,
    empty_flag_sticky _ _ (by decide)
      (Relation.ReflTransGen.single (OpStep.doLoad _ [0]))⟩

/-- C10: the navigation operations `goToPage`, `nextPage` and
`previousPage` never change the stored records, `perPage`, `empty` or
`numberOfPages`; they modify at most `page`, `lowerLimit` and
`upperLimit`. -/
theorem nav_frame (s : OfferStore α) (p : ℤ) :
    ((goToPage s p).2.records = s.records ∧
        (goToPage s p).2.perPage = s.perPage ∧
        (goToPage s p).2.empty = s.empty ∧
        (goToPage s p).2.numberOfPages = s.numberOfPages) ∧
      ((nextPage s).2.records = s.records ∧
        (nextPage s).2.perPage = s.perPage ∧
        (nextPage s).2.empty = s.empty ∧
        (nextPage s).2.numberOfPages = s.numberOfPages) ∧
      ((previousPage s).2.records = s.records ∧
        (previousPage s).2.perPage = s.perPage ∧
        (previousPage s).2.empty = s.empty ∧
        (previousPage s).2.numberOfPages = s.numberOfPages) :=
  ⟨⟨rfl, rfl, rfl, rfl⟩, nextPage_frame s, previousPage_frame s⟩

end Ecommerce
